import Mathlib

/-!
# Verification of the document-verification pipeline

Shallow embedding of the core of the `document_identify_system` repository:
the document lifecycle entity (`src/verifier_app/domains/documents/entities.py`),
the document processor (`src/verifier_app/infrastructure/services/document_processor.py`),
the background task retry protocol (`src/verifier_app/infrastructure/tasks/document_tasks.py`),
the review queue service (`src/verifier_app/infrastructure/services/review_queue_service.py`)
and the webhook delivery service (`src/verifier_app/infrastructure/services/webhook_service.py`).

Python dictionaries are modelled as association lists (`List (String × α)`)
with Python-dict insertion semantics, floats as rationals, raised exceptions
as `Except`, and wall-clock timestamps are elided.
-/

namespace DocVerify

/-! ## Domain entities (`domains/documents/entities.py`, `domains/templates/entities.py`) -/

/-- `BoundingBox` value object (`domains/templates/entities.py`). -/
structure BoundingBox where
  x1 : Rat
  y1 : Rat
  x2 : Rat
  y2 : Rat
deriving Repr, DecidableEq

/-- `DocumentStatus` enum of the domain entity (`domains/documents/entities.py`). -/
inductive DocumentStatus where
  | pending
  | processing
  | passed
  | failed
  | review_required
deriving Repr, DecidableEq

/-- Metadata values stored in a processing event's `metadata` dict
(the code stores strings, statuses and counts in that `Dict[str, Any]`). -/
inductive MetaValue where
  | str (v : String)
  | status (v : DocumentStatus)
  | nat (v : Nat)
deriving Repr, DecidableEq

/-- `ProcessingEvent` (`domains/documents/entities.py`); the wall-clock `at`
timestamp is elided. -/
structure ProcessingEvent where
  event : String
  metadata : List (String × MetaValue)
deriving Repr, DecidableEq

/-- `OcrBlock` (`domains/documents/entities.py`). -/
structure OcrBlock where
  page : Nat
  bbox : BoundingBox
  text : String
  confidence : Rat
deriving Repr, DecidableEq

/-- `MissingField` (`domains/documents/entities.py`). -/
structure MissingField where
  field_name : String
  bbox : BoundingBox
  reason : String := "not_found"
deriving Repr, DecidableEq

/-- `ValidationResult` value object (`domains/documents/entities.py`);
the `validation_timestamp` is elided. -/
structure ValidationResult where
  is_success : Bool
  missing_fields : List MissingField := []
  low_confidence_fields : List String := []
  ambiguous_fields : List String := []
  per_field_confidence : List (String × Rat) := []
  extracted_data : List (String × String) := []
deriving Repr, DecidableEq

/-- `SubmittedDocument` aggregate root (`domains/documents/entities.py`);
timestamps elided. -/
structure SubmittedDocument where
  id : String
  template_id : String
  file_url : String
  status : DocumentStatus := .pending
  pages : Option Nat := none
  ocr_blocks : List OcrBlock := []
  processing_history : List ProcessingEvent := []
  validation_result : Option ValidationResult := none
  uploaded_by : Option String := none
deriving Repr, DecidableEq

namespace SubmittedDocument

/-- `SubmittedDocument.add_processing_event`: appends one event to the history. -/
def add_processing_event (d : SubmittedDocument) (event : String)
    (metadata : List (String × MetaValue)) : SubmittedDocument :=
  { d with processing_history := d.processing_history ++ [⟨event, metadata⟩] }

/-- `SubmittedDocument.update_status`: sets the status and records a
`status_changed` event carrying the old and new statuses plus extra metadata. -/
def update_status (d : SubmittedDocument) (new_status : DocumentStatus)
    (metadata : List (String × MetaValue) := []) : SubmittedDocument :=
  let old_status := d.status
  ({ d with status := new_status }).add_processing_event "status_changed"
    ([("from", MetaValue.status old_status), ("to", MetaValue.status new_status)] ++ metadata)

/-- `SubmittedDocument.set_ocr_result`. -/
def set_ocr_result (d : SubmittedDocument) (blocks : List OcrBlock) : SubmittedDocument :=
  ({ d with ocr_blocks := blocks }).add_processing_event "ocr_completed"
    [("blocks_count", .nat blocks.length)]

/-- `SubmittedDocument.set_validation_result`: stores the result and routes the
document to `passed`, `review_required` or `failed`. -/
def set_validation_result (d : SubmittedDocument) (result : ValidationResult) :
    SubmittedDocument :=
  let d := { d with validation_result := some result }
  if result.is_success then
    d.update_status .passed
  else
    if !result.missing_fields.isEmpty || !result.low_confidence_fields.isEmpty then
      d.update_status .review_required
    else
      d.update_status .failed

/-- `SubmittedDocument.requires_human_review`. -/
def requires_human_review (d : SubmittedDocument) : Bool :=
  d.status == .review_required

end SubmittedDocument

/-- The mutating operations of `SubmittedDocument` that the application can
run against a document, for reasoning about operation sequences. -/
inductive DocOp where
  | addEvent (event : String) (metadata : List (String × MetaValue))
  | updateStatus (new_status : DocumentStatus) (metadata : List (String × MetaValue))
  | setOcrResult (blocks : List OcrBlock)
  | setValidationResult (result : ValidationResult)
deriving Repr

/-- Interpretation of a single `SubmittedDocument` operation. -/
def applyOp (d : SubmittedDocument) : DocOp → SubmittedDocument
  | .addEvent e m => d.add_processing_event e m
  | .updateStatus s m => d.update_status s m
  | .setOcrResult blocks => d.set_ocr_result blocks
  | .setValidationResult r => d.set_validation_result r

/-- Interpretation of a sequence of `SubmittedDocument` operations. -/
def applyOps (d : SubmittedDocument) (ops : List DocOp) : SubmittedDocument :=
  ops.foldl applyOp d

/-! ## Python dict and string helpers -/

/-- Lookup in an association list modelling a Python dict (`m.get(k)` / `k in m`). -/
def dictGet? {α : Type} (m : List (String × α)) (k : String) : Option α :=
  match m.find? (fun p => p.1 == k) with
  | some p => some p.2
  | none => none

/-- `m.get(k, default)`. -/
def dictGetD {α : Type} (m : List (String × α)) (k : String) (default : α) : α :=
  (dictGet? m k).getD default

/-- `m[k] = v` with Python-dict semantics: an existing key keeps its position
and gets the new value, a new key is appended. -/
def dictInsert {α : Type} (m : List (String × α)) (k : String) (v : α) :
    List (String × α) :=
  if m.any (fun p => p.1 == k) then
    m.map (fun p => if p.1 == k then (k, v) else p)
  else
    m ++ [(k, v)]

/-- `m.update(other)` with Python-dict semantics. -/
def dictUpdate {α : Type} (m other : List (String × α)) : List (String × α) :=
  other.foldl (fun acc p => dictInsert acc p.1 p.2) m

/-- Python's truthiness-based `x or default` for an optional float:
`None` and `0.0` are falsy, so both fall back to the default. -/
def pyOrRat (x : Option Rat) (default : Rat) : Rat :=
  match x with
  | none => default
  | some v => if v == 0 then default else v

/-- Split a character list at every occurrence of a separator (`str.split`). -/
def splitOnChar (sep : Char) : List Char → List (List Char)
  | [] => [[]]
  | c :: rest =>
    let r := splitOnChar sep rest
    if c = sep then [] :: r
    else
      match r with
      | [] => [[c]]
      | h :: t => (c :: h) :: t

/-- ASCII lowercasing of one character (`str.lower`; the extensions the
allow-list compares against are ASCII). -/
def charLower (c : Char) : Char :=
  match c with
  | 'A' => 'a' | 'B' => 'b' | 'C' => 'c' | 'D' => 'd' | 'E' => 'e' | 'F' => 'f'
  | 'G' => 'g' | 'H' => 'h' | 'I' => 'i' | 'J' => 'j' | 'K' => 'k' | 'L' => 'l'
  | 'M' => 'm' | 'N' => 'n' | 'O' => 'o' | 'P' => 'p' | 'Q' => 'q' | 'R' => 'r'
  | 'S' => 's' | 'T' => 't' | 'U' => 'u' | 'V' => 'v' | 'W' => 'w' | 'X' => 'x'
  | 'Y' => 'y' | 'Z' => 'z'
  | other => other

/-- `pathlib.PurePath(name).suffix` on the characters of the final path
component: the substring from the last dot, when that dot is neither the
first nor the last character of the name. -/
def pathSuffixChars (filename : String) : List Char :=
  let base := (splitOnChar '/' filename.data).getLastD []
  let ext := (base.reverse.takeWhile (fun c => c ≠ '.')).reverse
  if ext.length = base.length then []          -- no dot at all
  else if ext.length = 0 then []               -- dot is the last character
  else if ext.length + 1 = base.length then [] -- dot is the first character
  else '.' :: ext

/-- `Path(filename).suffix.lower().lstrip('.')` as used by the upload
validation (`document_processor.py`). -/
def fileExtension (filename : String) : String :=
  String.mk (((pathSuffixChars filename).map charLower).dropWhile (fun c => c = '.'))

/-! ## Field matcher (`DocumentProcessor._validate_template_fields`) -/

/-- One entry of `template.field_definitions` as consumed by the processor: a
JSON dict with the field's name and bbox.  `confidence_threshold` is the
optional per-field override the SPEC speaks about; the code never reads it. -/
structure FieldDef where
  name : String
  bbox : BoundingBox
  confidence_threshold : Option Rat := none
deriving Repr, DecidableEq

/-- One value of the `field_results` dict built by the matcher. -/
structure FieldMatchEntry where
  confidence : Rat
  bbox : Option BoundingBox
  value : String
deriving Repr, DecidableEq

/-- One entry of the `low_confidence_fields` list built by the matcher. -/
structure LowConfidenceField where
  field_name : String
  bbox : BoundingBox
  reason : String := "low_confidence"
  confidence : Rat
deriving Repr, DecidableEq

/-- Result dict of `DocumentProcessor._validate_template_fields`. -/
structure FieldValidation where
  is_valid : Bool
  extracted_data : List (String × String)
  field_results : List (String × FieldMatchEntry)
  missing_fields : List MissingField
  low_confidence_fields : List LowConfidenceField
  error : Option String := none
deriving Repr, DecidableEq

/-- `{field["name"]: field for field in template.field_definitions}`:
Python dict comprehension, last definition of a name wins. -/
def expectedFieldsDict (fields : List FieldDef) : List (String × FieldDef) :=
  fields.foldl (fun m f => dictInsert m f.name f) []

/-- The matching loop of `_validate_template_fields`, over the expected-field
dict items in order.  `threshold` is the already-computed
`template.confidence_threshold or 0.8`; the extracted values, per-field
confidences and bboxes are the three dicts the loop reads. -/
def matchFieldsLoop (threshold : Rat) (extracted : List (String × String))
    (perFieldConf : List (String × Rat)) (bboxes : List (String × BoundingBox)) :
    List (String × FieldDef) →
    List MissingField × List LowConfidenceField × List (String × FieldMatchEntry)
  | [] => ([], [], [])
  | (field_name, field_def) :: rest =>
    let (m, l, r) := matchFieldsLoop threshold extracted perFieldConf bboxes rest
    match dictGet? extracted field_name with
    | none =>
        (⟨field_name, field_def.bbox, "not_found"⟩ :: m, l, r)
    | some value =>
        let confidence := dictGetD perFieldConf field_name 0
        let entry : FieldMatchEntry :=
          ⟨confidence, dictGet? bboxes field_name, value⟩
        if confidence < threshold then
          (m, ⟨field_name, field_def.bbox, "low_confidence", confidence⟩ :: l,
           (field_name, entry) :: r)
        else
          (m, l, (field_name, entry) :: r)

/-- `DocumentProcessor._validate_template_fields`, happy path: match the
template's fields against the extracted data and classify.
`templateThreshold` models the nullable `template.confidence_threshold`
column. -/
def validate_template_fields (fields : List FieldDef) (templateThreshold : Option Rat)
    (extracted : List (String × String)) (perFieldConf : List (String × Rat))
    (bboxes : List (String × BoundingBox)) : FieldValidation :=
  let r := matchFieldsLoop (pyOrRat templateThreshold 0.8) extracted perFieldConf bboxes
    (expectedFieldsDict fields)
  { is_valid := r.1.isEmpty && r.2.1.isEmpty
    extracted_data := extracted
    field_results := r.2.2
    missing_fields := r.1
    low_confidence_fields := r.2.1 }

/-- The hardcoded extraction mock of `_validate_template_fields`
(`mock_extracted_data`). -/
def mock_extracted_data : List (String × String) :=
  [("姓名", "王小明"), ("日期", "2023-10-26"), ("身分證號", "A123456789")]

/-- `mock_per_field_confidence`. -/
def mock_per_field_confidence : List (String × Rat) :=
  [("姓名", 0.95), ("日期", 0.80), ("身分證號", 0.88)]

/-- `mock_bboxes`. -/
def mock_bboxes : List (String × BoundingBox) :=
  [("姓名", ⟨100, 50, 300, 80⟩), ("日期", ⟨400, 100, 600, 130⟩),
   ("身分證號", ⟨100, 200, 400, 230⟩)]

/-- The catch-all fallback of `_validate_template_fields`: on any internal
exception the function returns this dict instead of propagating. -/
def validate_template_fields_fallback (e : String) : FieldValidation :=
  { is_valid := false
    extracted_data := []
    field_results := []
    missing_fields := []
    low_confidence_fields := []
    error := some e }

/-- `_validate_template_fields` as a total function over the outcome of its
internal logic: a raised exception is caught and mapped to the fallback. -/
def validate_template_fields_total (inner : Except String FieldValidation) :
    FieldValidation :=
  match inner with
  | .ok r => r
  | .error e => validate_template_fields_fallback e

/-- Field-matcher behaviour as the SPEC sentence states it (claim C2):
identical to the code's loop except that the effective threshold of a field is
its field-level override when present, else the template's global threshold. -/
def matchFieldsLoopSpec (threshold : Rat) (extracted : List (String × String))
    (perFieldConf : List (String × Rat)) (bboxes : List (String × BoundingBox)) :
    List (String × FieldDef) →
    List MissingField × List LowConfidenceField × List (String × FieldMatchEntry)
  | [] => ([], [], [])
  | (field_name, field_def) :: rest =>
    let (m, l, r) := matchFieldsLoopSpec threshold extracted perFieldConf bboxes rest
    match dictGet? extracted field_name with
    | none =>
        (⟨field_name, field_def.bbox, "not_found"⟩ :: m, l, r)
    | some value =>
        let confidence := dictGetD perFieldConf field_name 0
        let effective := field_def.confidence_threshold.getD threshold
        let entry : FieldMatchEntry :=
          ⟨confidence, dictGet? bboxes field_name, value⟩
        if confidence < effective then
          (m, ⟨field_name, field_def.bbox, "low_confidence", confidence⟩ :: l,
           (field_name, entry) :: r)
        else
          (m, l, (field_name, entry) :: r)

/-- The spec-worded field matcher (claim C2), for comparison with
`validate_template_fields`. -/
def validate_template_fields_spec (fields : List FieldDef)
    (templateThreshold : Option Rat) (extracted : List (String × String))
    (perFieldConf : List (String × Rat)) (bboxes : List (String × BoundingBox)) :
    FieldValidation :=
  let r := matchFieldsLoopSpec (pyOrRat templateThreshold 0.8) extracted perFieldConf bboxes
    (expectedFieldsDict fields)
  { is_valid := r.1.isEmpty && r.2.1.isEmpty
    extracted_data := extracted
    field_results := r.2.2
    missing_fields := r.1
    low_confidence_fields := r.2.1 }

/-! ## LLM content review (`DocumentProcessor._llm_content_review`) -/

/-- Result dict of `_llm_content_review`.  On the happy path it is whatever
`llm_service.validate_document_content` returned; on an exception it is the
fallback dict built in the `except` branch. -/
structure LLMReviewResult where
  is_valid : Bool
  confidence : Rat
  success : Bool := true
  error : Option String := none
deriving Repr, DecidableEq

/-- `DocumentProcessor._llm_content_review`: the LLM call's outcome is either
a result or a raised exception; an exception is caught and replaced by the
default-valid fallback (`is_valid=True`, `confidence=0.5`). -/
def llm_content_review (outcome : Except String LLMReviewResult) : LLMReviewResult :=
  match outcome with
  | .ok r => r
  | .error e => { is_valid := true, confidence := 0.5, success := false, error := some e }

/-- The verification outcome dict assembled by `DocumentProcessor._verify_document`
(the parts the claims are about). -/
structure VerifyOutcome where
  is_valid : Bool
  confidence : Rat
  llm_review : LLMReviewResult
  field_validation : FieldValidation
  data_stored : Bool
deriving Repr, DecidableEq

/-- The combination step of `_verify_document`: the LLM call's raw outcome is
filtered through `_llm_content_review` (so an LLM exception does not abort the
attempt), then `is_valid` is the conjunction of the LLM verdict and the field
validation verdict. -/
def verify_document (llmOutcome : Except String LLMReviewResult)
    (fieldValidation : FieldValidation) (ocrConfidence : Rat) :
    Except String VerifyOutcome :=
  let llm := llm_content_review llmOutcome
  let is_valid := llm.is_valid && fieldValidation.is_valid
  .ok { is_valid := is_valid
        confidence := ocrConfidence
        llm_review := llm
        field_validation := fieldValidation
        data_stored := is_valid }

/-! ## Upload ingestion (`DocumentProcessor.process_uploaded_file`) -/

/-- The configured upload limits (`core/config.py`): `MAX_FILE_SIZE_MB` and
`SUPPORTED_FILE_TYPES`. -/
structure UploadConfig where
  max_file_size_mb : Nat
  supported_file_types : List String
deriving Repr, DecidableEq

/-- The default configuration values of `core/config.py`. -/
def defaultUploadConfig : UploadConfig :=
  { max_file_size_mb := 50
    supported_file_types := ["pdf", "jpg", "jpeg", "png", "tiff", "bmp"] }

/-- The columns of a `documents` row that the ingestion path reads/writes
(`infrastructure/database/models.py`). -/
structure StoredDocument where
  id : Nat
  original_filename : String
  file_size : Nat
  file_hash : Nat
deriving Repr, DecidableEq

/-- Outcome of `process_uploaded_file`: a raised `ValueError`, the duplicate
short-circuit dict, or the success dict. -/
inductive UploadResult where
  | validationError (msg : String)
  | duplicate (document_id : Nat)
  | success (document_id : Nat)
deriving Repr, DecidableEq

/-- Externally observable side effects of one `process_uploaded_file` call. -/
structure UploadEffects where
  hash_computed : Bool
  storage_writes : Nat
  ocr_calls : Nat
deriving Repr, DecidableEq

/-- No side effect at all. -/
def UploadEffects.none : UploadEffects := ⟨false, 0, 0⟩

/-- `DocumentProcessor.process_uploaded_file`, modelled up to the point the
claims are about: size/extension validation, content hashing, the duplicate
short-circuit, and otherwise storage upload + document insert + OCR call.
`hash` stands for `hashlib.sha256(file_content).hexdigest()` (any function of
the bytes); the document id allocated for a new record is abstracted as the
current table size. -/
def process_uploaded_file (cfg : UploadConfig) (hash : List Nat → Nat)
    (db : List StoredDocument) (file_content : List Nat) (filename : String) :
    UploadResult × List StoredDocument × UploadEffects :=
  if file_content.length > cfg.max_file_size_mb * 1024 * 1024 then
    (.validationError "File size exceeds limit", db, UploadEffects.none)
  else if !(cfg.supported_file_types.contains (fileExtension filename)) then
    (.validationError "Unsupported file type", db, UploadEffects.none)
  else
    let file_hash := hash file_content
    match db.find? (fun d => d.file_hash == file_hash) with
    | some existing_doc =>
        (.duplicate existing_doc.id, db, { hash_computed := true, storage_writes := 0, ocr_calls := 0 })
    | none =>
        let document : StoredDocument :=
          { id := db.length
            original_filename := filename
            file_size := file_content.length
            file_hash := file_hash }
        (.success document.id, db ++ [document],
         { hash_computed := true, storage_writes := 1, ocr_calls := 1 })

/-! ## Background task retry protocol (`tasks/document_tasks.py`, `tasks/celery_app.py`) -/

/-- The fields of a `task_records` row the retry path touches.  Every
execution attempt of `process_document_async` constructs and inserts a fresh
record for the same Celery `task_id`. -/
structure TaskRecordRow where
  task_id : String
  status : String
  retry_count : Nat
deriving Repr, DecidableEq

/-- Celery's `max_retries` for `process_document_async` (the celery default,
also set as 3 in `celery_app.py`). -/
def task_max_retries : Nat := 3

/-- Insert into `task_records` under the schema's `unique=True` constraint on
`task_id` (models.py): a row whose `task_id` is already present makes the
commit raise `IntegrityError` instead of inserting. -/
def insertTaskRecord (table : List TaskRecordRow) (row : TaskRecordRow) :
    Except String (List TaskRecordRow) :=
  if table.any (fun r => r.task_id == row.task_id) then
    .error "IntegrityError: UNIQUE constraint failed: task_records.task_id"
  else
    .ok (table ++ [row])

/-- How one execution attempt of `process_document_async` ends when its work
raises a transient error. -/
inductive AttemptOutcome where
  | integrityError
  | retryScheduled (countdown : Nat)
  | abandoned
deriving Repr, DecidableEq

/-- One execution attempt of `process_document_async` whose work raises a
transient error, at retry counter `retries`, against the current
`task_records` table.  The attempt first inserts a fresh `TaskRecord` row for
its (unchanged) Celery `task_id` — code that sits before the `try:` block, so
an `IntegrityError` from a duplicate `task_id` propagates uncaught and ends
the attempt with no retry scheduled.  When the insert succeeds, the work
fails inside the `try:`, the document is set to `FAILED`, the record is
marked `FAILURE`, and if `retries < max_retries` the record's `retry_count`
is incremented and a retry is scheduled with countdown `60 * 2 ^ retries`;
otherwise the attempt abandons. -/
def failingAttempt (task_id : String) (retries maxRetries : Nat)
    (table : List TaskRecordRow) : List TaskRecordRow × AttemptOutcome :=
  match insertTaskRecord table { task_id := task_id, status := "STARTED", retry_count := 0 } with
  | .error _ => (table, .integrityError)
  | .ok _ =>
      if retries < maxRetries then
        (table ++ [{ task_id := task_id, status := "FAILURE", retry_count := 1 }],
         .retryScheduled (60 * 2 ^ retries))
      else
        (table ++ [{ task_id := task_id, status := "FAILURE", retry_count := 0 }],
         .abandoned)

/-- The whole life of a task whose work always raises: Celery re-executes the
task body (with the same `task_id` and an incremented retry counter) exactly
while an attempt ends in `retryScheduled`.  Returns the final `task_records`
table, the scheduled retry countdowns in order, and the final outcome.
`fuel` bounds the recursion and is passed larger than any possible attempt
count. -/
def runFailingTask (task_id : String) (maxRetries fuel retries : Nat)
    (table : List TaskRecordRow) (delays : List Nat) :
    List TaskRecordRow × List Nat × AttemptOutcome :=
  match fuel with
  | 0 => (table, delays, .integrityError)
  | fuel + 1 =>
      let r := failingAttempt task_id retries maxRetries table
      match r.2 with
      | .retryScheduled c =>
          runFailingTask task_id maxRetries fuel (retries + 1) r.1 (delays ++ [c])
      | o => (r.1, delays, o)

/-! ## Review decisions (`ReviewQueueService.submit_review_decision`) -/

/-- `VerificationStatus` enum (`infrastructure/database/models.py`). -/
inductive VerificationStatus where
  | pending
  | pass_
  | fail
  | manual_review
  | completed_
  | failed_
deriving Repr, DecidableEq

/-- `DocumentStatus` enum of the database model
(`infrastructure/database/models.py`) — distinct from the domain entity enum;
`verified` is its terminal success state. -/
inductive DbDocumentStatus where
  | uploaded
  | processing
  | ocr_completed
  | verified
  | failed
  | archived
deriving Repr, DecidableEq

/-- The fields of a `verification_records` row (joined with its document's
status) that `submit_review_decision` reads and writes. -/
structure ReviewState where
  verification_status : VerificationStatus
  document_status : DbDocumentStatus
  requires_manual_review : Bool
  reviewed_by : Option String := none
  manual_review_notes : Option String := none
  extracted_data : List (String × String) := []
deriving Repr, DecidableEq

/-- Side effects `submit_review_decision` could perform besides the row
update; in particular enqueueing a background reprocessing task. -/
inductive ReviewEffect where
  | enqueueTask (taskName : String)
deriving Repr, DecidableEq

/-- `ReviewQueueService.submit_review_decision`: `none` for the looked-up
record models an unknown `verification_id` (the `ValueError` raise); an
unknown decision string is also a synchronous `ValueError`, issued before any
field of the record is written.  Returns the committed row state together
with the list of additional side effects performed. -/
def submit_review_decision (record : Option ReviewState) (decision : String)
    (reviewer_id : String) (notes : Option String)
    (corrected_data : List (String × String)) :
    Except String (ReviewState × List ReviewEffect) :=
  match record with
  | none => .error "Verification record not found"
  | some verification =>
    match (if decision == "approve" then
             some { verification with
                      verification_status := .pass_
                      document_status := .verified }
           else if decision == "reject" then
             some { verification with
                      verification_status := .fail
                      document_status := .failed }
           else if decision == "request_reprocess" then
             some { verification with
                      verification_status := .pending
                      document_status := .processing
                      requires_manual_review := false }
           else none) with
    | none => .error ("Invalid decision: " ++ decision)
    | some verification =>
      let verification :=
        { verification with
            reviewed_by := some reviewer_id
            manual_review_notes := notes
            requires_manual_review := false
            extracted_data :=
              if corrected_data.isEmpty then verification.extracted_data
              else dictUpdate verification.extracted_data corrected_data }
      .ok (verification, [])

/-! ## Webhook delivery (`WebhookService._deliver_webhook`) -/

/-- The parts of an `httpx` response the delivery path reads. -/
structure HttpResponse where
  status_code : Nat
  body : String
deriving Repr, DecidableEq

/-- The fields of a `webhook_deliveries` row that `_deliver_webhook` writes. -/
structure DeliveryRecord where
  status : String
  response_status : Option Nat := none
  response_body : Option String := none
  error_message : Option String := none
deriving Repr, DecidableEq

/-- Result of one `_deliver_webhook` call: the final delivery row, the request
headers that were sent, and the returned boolean. -/
structure DeliveryOutcome where
  record : DeliveryRecord
  headers : List (String × String)
  returned : Bool
deriving Repr, DecidableEq

/-- `WebhookService._deliver_webhook`: a delivery row is created `pending`,
the request is sent with the delivery id in the `X-Webhook-Delivery` header,
and the row is updated from the response (`delivered` iff `status_code < 400`,
with the status code and the body truncated to 1000 characters) or from the
transport error (`failed` with the error message). -/
def deliver_webhook (delivery_id : Nat) (event_type : String)
    (response : Except String HttpResponse) : DeliveryOutcome :=
  let headers := [("Content-Type", "application/json"),
                  ("X-Webhook-Event", event_type),
                  ("X-Webhook-Delivery", toString delivery_id)]
  match response with
  | .ok resp =>
      { record := { status := if resp.status_code < 400 then "delivered" else "failed"
                    response_status := some resp.status_code
                    response_body := some (resp.body.take 1000) }
        headers := headers
        returned := resp.status_code < 400 }
  | .error e =>
      { record := { status := "failed", error_message := some e }
        headers := headers
        returned := false }

/-! ## Glue between the processor dicts and the domain value object -/

/-- The correspondence between the processor's field-validation dict and the
domain `ValidationResult` value object (§3 of the spec): `is_valid` becomes
`is_success`, the missing list carries over, the low-confidence list keeps the
field names, per-field confidences come from the `field_results` entries. -/
def validationResultOfFieldValidation (v : FieldValidation) : ValidationResult :=
  { is_success := v.is_valid
    missing_fields := v.missing_fields
    low_confidence_fields := v.low_confidence_fields.map LowConfidenceField.field_name
    per_field_confidence := v.field_results.map (fun p => (p.1, p.2.confidence))
    extracted_data := v.extracted_data }

/-! ## Concrete inputs used by counterexamples and witnesses -/

/-- A template field named `A` whose definition carries a field-level
confidence-threshold override of 0.5. -/
def fieldA : FieldDef := { name := "A", bbox := ⟨0, 0, 1, 1⟩, confidence_threshold := some 0.5 }

/-- A pending-review verification row joined with its document status. -/
def sampleReviewState : ReviewState :=
  { verification_status := .manual_review
    document_status := .ocr_completed
    requires_manual_review := true }

/-- A freshly uploaded document with one history entry already recorded. -/
def sampleDocument : SubmittedDocument :=
  { id := "doc-1"
    template_id := "tpl-1"
    file_url := "u"
    processing_history := [⟨"uploaded", []⟩] }

/-- A sample operation sequence: a status transition followed by an event
recording and a validation result. -/
def sampleOps : List DocOp :=
  [.updateStatus .processing [], .addEvent "custom" [],
   .setValidationResult { is_success := true }]

/-!
## Theorems

Shared helper lemmas first, then one theorem per claim (with witnesses and
counterexamples where required).
-/

/-- `add_processing_event` appends exactly one entry to the history. -/
theorem add_processing_event_history (d : SubmittedDocument) (e : String)
    (m : List (String × MetaValue)) :
    (d.add_processing_event e m).processing_history = d.processing_history ++ [⟨e, m⟩] :=
  rfl

/-- `update_status` appends exactly one `status_changed` entry. -/
theorem update_status_history (d : SubmittedDocument) (s : DocumentStatus)
    (m : List (String × MetaValue)) :
    (d.update_status s m).processing_history =
      d.processing_history ++
        [⟨"status_changed",
          [("from", MetaValue.status d.status), ("to", MetaValue.status s)] ++ m⟩] :=
  rfl

/-- Every single document operation only appends to the history. -/
theorem applyOp_history_extends (d : SubmittedDocument) (op : DocOp) :
    d.processing_history <+: (applyOp d op).processing_history := by
  cases op with
  | addEvent e m => exact ⟨[⟨e, m⟩], rfl⟩
  | updateStatus s m => exact ⟨_, (update_status_history d s m).symm⟩
  | setOcrResult blocks => exact ⟨_, rfl⟩
  | setValidationResult r =>
      unfold applyOp SubmittedDocument.set_validation_result
      by_cases h : r.is_success
      · simp only [h, if_true]
        exact ⟨_, (update_status_history _ _ _).symm⟩
      · simp only [h, if_false]
        by_cases h2 : !r.missing_fields.isEmpty || !r.low_confidence_fields.isEmpty
        · simp only [h2, if_true]
          exact ⟨_, (update_status_history _ _ _).symm⟩
        · simp only [h2, if_false]
          exact ⟨_, (update_status_history _ _ _).symm⟩

/-- Every sequence of document operations only appends to the history. -/
theorem applyOps_history_extends (ops : List DocOp) (d : SubmittedDocument) :
    d.processing_history <+: (applyOps d ops).processing_history := by
  induction ops generalizing d with
  | nil => exact List.prefix_refl _
  | cons op rest ih =>
      exact List.IsPrefix.trans (applyOp_history_extends d op) (ih (applyOp d op))

/-- C1 (confirmed).  Decision routing of `set_validation_result`: a successful
result sends the document to `passed`; an unsuccessful result with any missing
or low-confidence fields sends it to `review_required`; an unsuccessful result
with neither sends it to `failed`; and `requires_human_review` is true exactly
on status `review_required`. -/
theorem C1_decision_routing :
    ∀ (d : SubmittedDocument) (r : ValidationResult),
      (d.set_validation_result r).status =
        (if r.is_success then .passed
         else if !r.missing_fields.isEmpty || !r.low_confidence_fields.isEmpty then
           .review_required
         else .failed)
      ∧ ∀ (d' : SubmittedDocument),
          d'.requires_human_review = (d'.status == .review_required) := by
  intro d r
  refine ⟨?_, fun d' => rfl⟩
  unfold SubmittedDocument.set_validation_result
  by_cases h : r.is_success
  · simp [h, SubmittedDocument.update_status, SubmittedDocument.add_processing_event]
  · by_cases h2 : !r.missing_fields.isEmpty || !r.low_confidence_fields.isEmpty
    · simp [h, h2, SubmittedDocument.update_status, SubmittedDocument.add_processing_event]
    · simp [h, h2, SubmittedDocument.update_status, SubmittedDocument.add_processing_event]

/-- C3 (confirmed).  History is append-only: any sequence of operations
preserves the existing history as a prefix (so its length is monotonically
non-decreasing and no existing entry is modified or removed), and every status
transition appends exactly one `status_changed` event carrying the old and new
statuses. -/
theorem C3_history_append_only :
    ∀ (d : SubmittedDocument) (ops : List DocOp),
      (d.processing_history <+: (applyOps d ops).processing_history)
      ∧ d.processing_history.length ≤ (applyOps d ops).processing_history.length
      ∧ (∀ (i : Nat) (h : i < d.processing_history.length),
          (applyOps d ops).processing_history[i]? = some (d.processing_history.get ⟨i, h⟩))
      ∧ (∀ (d' : SubmittedDocument) (s : DocumentStatus) (m : List (String × MetaValue)),
          (d'.update_status s m).processing_history =
            d'.processing_history ++
              [⟨"status_changed",
                [("from", MetaValue.status d'.status), ("to", MetaValue.status s)] ++ m⟩]) := by
  intro d ops
  have hpre := applyOps_history_extends ops d
  refine ⟨hpre, hpre.length_le, ?_, fun d' s m => update_status_history d' s m⟩
  intro i h
  obtain ⟨t, ht⟩ := hpre
  rw [← ht, List.getElem?_append_left h, List.getElem?_eq_getElem h]
  rfl

/-- Exact characterization of the matching loop: the missing list collects the
absent fields with reason `not_found`, the low-confidence list collects the
present fields below the (global) threshold, and `field_results` collects every
present field with its confidence, bbox and value — all in field order. -/
theorem matchFieldsLoop_eq (threshold : Rat) (extracted : List (String × String))
    (conf : List (String × Rat)) (bboxes : List (String × BoundingBox)) :
    ∀ (l : List (String × FieldDef)),
      matchFieldsLoop threshold extracted conf bboxes l =
        ((l.filter (fun p => (dictGet? extracted p.1).isNone)).map
            (fun p => (⟨p.1, p.2.bbox, "not_found"⟩ : MissingField)),
         (l.filter (fun p => (dictGet? extracted p.1).isSome
              && decide (dictGetD conf p.1 0 < threshold))).map
            (fun p => (⟨p.1, p.2.bbox, "low_confidence", dictGetD conf p.1 0⟩ :
              LowConfidenceField)),
         l.filterMap (fun p =>
            match dictGet? extracted p.1 with
            | some v => some (p.1, (⟨dictGetD conf p.1 0, dictGet? bboxes p.1, v⟩ :
                FieldMatchEntry))
            | none => none)) := by
  intro l
  induction l with
  | nil => rfl
  | cons p rest ih =>
      obtain ⟨field_name, field_def⟩ := p
      simp only [matchFieldsLoop, ih]
      cases hex : dictGet? extracted field_name with
      | none =>
          simp [List.filter_cons, List.filterMap_cons, hex]
      | some v =>
          by_cases hc : dictGetD conf field_name 0 < threshold
          · simp [List.filter_cons, List.filterMap_cons, hex, hc]
          · simp [List.filter_cons, List.filterMap_cons, hex, hc]

/-- C2 amended (the effective threshold is the template's global threshold —
`confidence_threshold or 0.8` — for every field; field-level overrides are
ignored).  For every template field list and extracted data: the absent
expected fields are recorded as missing with reason `not_found`, the present
fields below the global threshold are recorded as low-confidence, every
present field is recorded in `field_results` with its confidence, and
`is_valid` is true exactly when there are no missing and no low-confidence
fields. -/
theorem C2_field_matcher_global_threshold :
    ∀ (fields : List FieldDef) (templateThreshold : Option Rat)
      (extracted : List (String × String)) (conf : List (String × Rat))
      (bboxes : List (String × BoundingBox)),
      (validate_template_fields fields templateThreshold extracted conf bboxes).missing_fields
        = ((expectedFieldsDict fields).filter
            (fun p => (dictGet? extracted p.1).isNone)).map
            (fun p => (⟨p.1, p.2.bbox, "not_found"⟩ : MissingField))
      ∧ (validate_template_fields fields templateThreshold extracted conf bboxes).low_confidence_fields
        = ((expectedFieldsDict fields).filter
            (fun p => (dictGet? extracted p.1).isSome
              && decide (dictGetD conf p.1 0 < pyOrRat templateThreshold 0.8))).map
            (fun p => (⟨p.1, p.2.bbox, "low_confidence", dictGetD conf p.1 0⟩ :
              LowConfidenceField))
      ∧ (validate_template_fields fields templateThreshold extracted conf bboxes).field_results
        = (expectedFieldsDict fields).filterMap (fun p =>
            match dictGet? extracted p.1 with
            | some v => some (p.1, (⟨dictGetD conf p.1 0, dictGet? bboxes p.1, v⟩ :
                FieldMatchEntry))
            | none => none)
      ∧ (validate_template_fields fields templateThreshold extracted conf bboxes).is_valid
        = ((validate_template_fields fields templateThreshold extracted conf bboxes).missing_fields.isEmpty
            && (validate_template_fields fields templateThreshold extracted conf bboxes).low_confidence_fields.isEmpty) := by
  intro fields templateThreshold extracted conf bboxes
  simp only [validate_template_fields, matchFieldsLoop_eq]
  simp

/-- C2 counterexample.  A field `A` with a field-level threshold override of
0.5, template global threshold 0.9, extracted with confidence 0.7: the claim
(spec-worded matcher, override in effect) records it as matched and reports
`is_valid = true`, but the code compares against the global threshold and
records it as low-confidence with `is_valid = false`. -/
theorem C2_counterexample :
    (validate_template_fields [fieldA] (some 0.9) [("A", "v")] [("A", 0.7)] []).is_valid
      = false
    ∧ ((validate_template_fields [fieldA] (some 0.9) [("A", "v")] [("A", 0.7)] []).low_confidence_fields.map
        LowConfidenceField.field_name) = ["A"]
    ∧ (validate_template_fields_spec [fieldA] (some 0.9) [("A", "v")] [("A", 0.7)] []).is_valid
      = true
    ∧ (validate_template_fields_spec [fieldA] (some 0.9) [("A", "v")] [("A", 0.7)] []).low_confidence_fields
      = [] := by
  have hlt : (0.7 : Rat) < 0.9 := by norm_num
  have hge : ¬ (0.7 : Rat) < 0.5 := by norm_num
  have hne : ¬ (0.9 : Rat) = 0 := by norm_num
  refine ⟨?_, ?_, ?_, ?_⟩ <;>
    simp [validate_template_fields, validate_template_fields_spec, matchFieldsLoop,
      matchFieldsLoopSpec, expectedFieldsDict, dictInsert, dictGet?, dictGetD, pyOrRat,
      fieldA, hlt, hge, hne]

/-- C3 witness: the append-only theorem applied to a concrete document with
one initial history entry and a three-operation sequence — the original entry
is still the first entry afterwards. -/
theorem C3_history_append_only_witness :
    (sampleDocument.processing_history <+:
      (applyOps sampleDocument sampleOps).processing_history)
    ∧ (applyOps sampleDocument sampleOps).processing_history[0]? =
        some ⟨"uploaded", []⟩ := by
  obtain ⟨h1, -, h3, -⟩ := C3_history_append_only sampleDocument sampleOps
  exact ⟨h1, h3 0 (by decide)⟩

/-- C4 (confirmed).  LLM fail-soft: when the LLM content-review call raises,
the review outcome defaults to `is_valid = true` with confidence 0.5, and the
verification attempt still produces a result (it does not propagate the
failure); its overall verdict is then exactly the field-validation verdict. -/
theorem C4_llm_fail_soft :
    ∀ (e : String) (fv : FieldValidation) (ocrConf : Rat),
      (llm_content_review (.error e)).is_valid = true
      ∧ (llm_content_review (.error e)).confidence = 0.5
      ∧ verify_document (.error e) fv ocrConf =
          .ok { is_valid := fv.is_valid
                confidence := ocrConf
                llm_review := { is_valid := true, confidence := 0.5,
                                success := false, error := some e }
                field_validation := fv
                data_stored := fv.is_valid } := by
  intro e fv ocrConf
  refine ⟨rfl, rfl, ?_⟩
  simp [verify_document, llm_content_review]

/-- C5 (confirmed).  Idempotent ingestion: (1) when the content hash matches
an already-stored document and the upload passes validation, the call returns
that document's id with a duplicate status, leaves the document table
unchanged, and performs no storage write and no OCR call; (2) in particular,
resubmitting byte-identical content right after a successful ingestion
returns the id just created, with no new record, storage write or OCR call. -/
theorem C5_idempotent_ingestion :
    (∀ (cfg : UploadConfig) (hash : List Nat → Nat) (db : List StoredDocument)
       (content : List Nat) (filename : String) (d : StoredDocument),
       ¬ content.length > cfg.max_file_size_mb * 1024 * 1024 →
       cfg.supported_file_types.contains (fileExtension filename) = true →
       db.find? (fun r => r.file_hash == hash content) = some d →
       process_uploaded_file cfg hash db content filename =
         (.duplicate d.id, db, ⟨true, 0, 0⟩))
    ∧ (∀ (cfg : UploadConfig) (hash : List Nat → Nat) (db db' : List StoredDocument)
       (content : List Nat) (filename fn2 : String) (id : Nat) (eff : UploadEffects),
       process_uploaded_file cfg hash db content filename = (.success id, db', eff) →
       cfg.supported_file_types.contains (fileExtension fn2) = true →
       process_uploaded_file cfg hash db' content fn2 =
         (.duplicate id, db', ⟨true, 0, 0⟩)) := by
  constructor
  · intro cfg hash db content filename d hsize hext hfind
    have hcond : ¬ ((!cfg.supported_file_types.contains (fileExtension filename)) = true) := by
      rw [hext]; simp
    unfold process_uploaded_file
    rw [if_neg hsize, if_neg hcond]
    simp only [hfind]
  · intro cfg hash db db' content filename fn2 id eff hfirst hext2
    unfold process_uploaded_file at hfirst
    by_cases hsize : content.length > cfg.max_file_size_mb * 1024 * 1024
    · rw [if_pos hsize] at hfirst
      exact absurd (congrArg Prod.fst hfirst) (by simp)
    · rw [if_neg hsize] at hfirst
      by_cases hext : cfg.supported_file_types.contains (fileExtension filename) = true
      · have hcond : ¬ ((!cfg.supported_file_types.contains (fileExtension filename)) = true) := by
          rw [hext]; simp
        rw [if_neg hcond] at hfirst
        cases hfind : db.find? (fun r => r.file_hash == hash content) with
        | some d =>
            simp only [hfind] at hfirst
            exact absurd (congrArg Prod.fst hfirst) (by simp)
        | none =>
            simp only [hfind, Prod.mk.injEq, UploadResult.success.injEq] at hfirst
            obtain ⟨hid, hdb, -⟩ := hfirst
            have hcond2 : ¬ ((!cfg.supported_file_types.contains (fileExtension fn2)) = true) := by
              rw [hext2]; simp
            have hnew : db'.find? (fun r => r.file_hash == hash content) =
                some { id := db.length, original_filename := filename,
                       file_size := content.length, file_hash := hash content } := by
              rw [← hdb, List.find?_append, hfind]
              simp [List.find?]
            unfold process_uploaded_file
            rw [if_neg hsize, if_neg hcond2]
            simp only [hnew]
            rw [← hid, ← hdb]
      · have hext' : cfg.supported_file_types.contains (fileExtension filename) = false :=
          Bool.eq_false_iff.mpr hext
        rw [if_pos (by rw [hext']; rfl)] at hfirst
        exact absurd (congrArg Prod.fst hfirst) (by simp)

/-- C5 witness: a first ingestion of `[1,2,3]` as `a.pdf` into an empty table
succeeds with id 0; resubmitting the same bytes returns id 0 as a duplicate,
with the table unchanged and zero storage writes and OCR calls. -/
theorem C5_idempotent_ingestion_witness :
    process_uploaded_file defaultUploadConfig List.length [] [1, 2, 3] "a.pdf" =
      (.success 0, [⟨0, "a.pdf", 3, 3⟩], ⟨true, 1, 1⟩)
    ∧ process_uploaded_file defaultUploadConfig List.length [⟨0, "a.pdf", 3, 3⟩]
        [1, 2, 3] "a.pdf" =
      (.duplicate 0, [⟨0, "a.pdf", 3, 3⟩], ⟨true, 0, 0⟩) := by
  have hfirst : process_uploaded_file defaultUploadConfig List.length [] [1, 2, 3] "a.pdf" =
      (.success 0, [⟨0, "a.pdf", 3, 3⟩], ⟨true, 1, 1⟩) := by decide
  exact ⟨hfirst,
    C5_idempotent_ingestion.2 defaultUploadConfig List.length [] [⟨0, "a.pdf", 3, 3⟩]
      [1, 2, 3] "a.pdf" "a.pdf" 0 ⟨true, 1, 1⟩ hfirst (by decide)⟩

/-- C6 amended (oversized files and disallowed extensions are rejected before
hashing, storage and OCR; empty files are NOT rejected).  An upload larger
than the configured maximum, or whose extension is not in the allow-list,
fails with a validation error before the content hash is computed and before
any storage write or OCR call. -/
theorem C6_upload_validation :
    ∀ (cfg : UploadConfig) (hash : List Nat → Nat) (db : List StoredDocument)
      (content : List Nat) (filename : String),
      (content.length > cfg.max_file_size_mb * 1024 * 1024 →
        process_uploaded_file cfg hash db content filename =
          (.validationError "File size exceeds limit", db, UploadEffects.none))
      ∧ (¬ content.length > cfg.max_file_size_mb * 1024 * 1024 →
         cfg.supported_file_types.contains (fileExtension filename) = false →
         process_uploaded_file cfg hash db content filename =
           (.validationError "Unsupported file type", db, UploadEffects.none)) := by
  intro cfg hash db content filename
  constructor
  · intro hsize
    unfold process_uploaded_file
    rw [if_pos hsize]
  · intro hsize hext
    unfold process_uploaded_file
    rw [if_neg hsize, if_pos (by rw [hext]; rfl)]

/-- C6 witness: with a 0 MB limit a one-byte file is rejected for size, and a
`.exe` upload is rejected for its extension — in both cases with no hash
computation, storage write or OCR call. -/
theorem C6_upload_validation_witness :
    process_uploaded_file ⟨0, ["pdf"]⟩ List.length [] [1] "a.pdf" =
      (.validationError "File size exceeds limit", [], UploadEffects.none)
    ∧ process_uploaded_file defaultUploadConfig List.length [] [1] "a.exe" =
      (.validationError "Unsupported file type", [], UploadEffects.none) :=
  ⟨(C6_upload_validation ⟨0, ["pdf"]⟩ List.length [] [1] "a.pdf").1 (by decide),
   (C6_upload_validation defaultUploadConfig List.length [] [1] "a.exe").2
     (by decide) (by decide)⟩

/-- C6 counterexample: an empty file with an allowed extension is not
rejected — its hash is computed and the full pipeline (storage write, OCR
call, new document record) runs, where the claim demands a validation error
before hashing. -/
theorem C6_counterexample :
    process_uploaded_file defaultUploadConfig List.length [] [] "scan.pdf" =
      (.success 0, [⟨0, "scan.pdf", 0, 0⟩], ⟨true, 1, 1⟩) := by
  decide

/-- C7 (code bug).  Evaluating the task life on a work function that always
raises a transient error: the first attempt inserts its `TaskRecord`, marks
it `FAILURE` with `retry_count = 1`, and schedules one retry at countdown 60;
the retry attempt then re-inserts a row with the same (unique) `task_id`
before the `try:` block and dies with `IntegrityError`, which no handler
catches — so the run ends after the second execution with a single row at
`retry_count = 1`, only the countdown-60 retry ever scheduled, and no
retries at 120 or 240, never reaching `retry_count = 3` or an orderly
abandonment. -/
theorem C7_retry_chain_integrity_error :
    ∀ (tid : String),
      runFailingTask tid task_max_retries (task_max_retries + 2) 0 [] [] =
        ([⟨tid, "FAILURE", 1⟩], [60], .integrityError)
      ∧ insertTaskRecord [⟨tid, "FAILURE", 1⟩] ⟨tid, "STARTED", 0⟩ =
          .error "IntegrityError: UNIQUE constraint failed: task_records.task_id" := by
  intro tid
  constructor
  · simp [runFailingTask, failingAttempt, insertTaskRecord, task_max_retries]
  · simp [insertTaskRecord]

/-- C8 amended (`request_reprocess` resets the record but does NOT enqueue a
background task).  `submit_decision` on an existing record: `approve` sets the
verification to pass and the document to its terminal success status
(`verified`); `reject` sets them to fail and failed; `request_reprocess`
resets the verification to pending, the document to processing and clears
`requires_manual_review`; any other decision value, and any unknown record
id, is rejected synchronously with an error, leaving the record unchanged. -/
theorem C8_review_decisions :
    ∀ (st : ReviewState) (reviewer : String) (notes : Option String)
      (cd : List (String × String)),
      (submit_review_decision (some st) "approve" reviewer notes cd =
        .ok ({ st with
                verification_status := .pass_
                document_status := .verified
                reviewed_by := some reviewer
                manual_review_notes := notes
                requires_manual_review := false
                extracted_data := if cd.isEmpty then st.extracted_data
                  else dictUpdate st.extracted_data cd }, []))
      ∧ (submit_review_decision (some st) "reject" reviewer notes cd =
        .ok ({ st with
                verification_status := .fail
                document_status := .failed
                reviewed_by := some reviewer
                manual_review_notes := notes
                requires_manual_review := false
                extracted_data := if cd.isEmpty then st.extracted_data
                  else dictUpdate st.extracted_data cd }, []))
      ∧ (submit_review_decision (some st) "request_reprocess" reviewer notes cd =
        .ok ({ st with
                verification_status := .pending
                document_status := .processing
                reviewed_by := some reviewer
                manual_review_notes := notes
                requires_manual_review := false
                extracted_data := if cd.isEmpty then st.extracted_data
                  else dictUpdate st.extracted_data cd }, []))
      ∧ (∀ decision : String,
          decision ≠ "approve" → decision ≠ "reject" → decision ≠ "request_reprocess" →
          submit_review_decision (some st) decision reviewer notes cd =
            .error ("Invalid decision: " ++ decision))
      ∧ (∀ decision : String,
          submit_review_decision none decision reviewer notes cd =
            .error "Verification record not found") := by
  intro st reviewer notes cd
  refine ⟨rfl, rfl, rfl, ?_, fun _ => rfl⟩
  intro decision h1 h2 h3
  simp [submit_review_decision, h1, h2, h3]

/-- C8 witness: the amended theorem applied to a concrete pending-review
record, including the synchronous rejection of the unknown decision value
`escalate`. -/
theorem C8_review_decisions_witness :
    submit_review_decision (some sampleReviewState) "approve" "rev-1" none [] =
      .ok ({ sampleReviewState with
              verification_status := .pass_
              document_status := .verified
              reviewed_by := some "rev-1"
              requires_manual_review := false }, [])
    ∧ submit_review_decision (some sampleReviewState) "escalate" "rev-1" none [] =
      .error "Invalid decision: escalate" := by
  refine ⟨?_, ?_⟩
  · exact (C8_review_decisions sampleReviewState "rev-1" none []).1
  · exact (C8_review_decisions sampleReviewState "rev-1" none []).2.2.2.1 "escalate"
      (by decide) (by decide) (by decide)

/-- C8 counterexample: a `request_reprocess` decision resets the record and
clears `requires_manual_review`, but the list of additional side effects is
empty — no background processing task is re-queued anywhere in
`submit_review_decision` (nor in its web route), contradicting the claim. -/
theorem C8_counterexample :
    submit_review_decision (some sampleReviewState) "request_reprocess" "rev-1" none [] =
      .ok ({ sampleReviewState with
              verification_status := .pending
              document_status := .processing
              reviewed_by := some "rev-1"
              requires_manual_review := false }, []) := by
  rfl

/-- C9 amended (delivery is marked `delivered` for any HTTP status < 400,
including 3xx, not only 2xx).  Every attempt records the response status code
and the body truncated to 1000 characters; a status ≥ 400 or a transport
error marks the record failed, and the delivery id is sent in the
`X-Webhook-Delivery` header. -/
theorem C9_webhook_delivery :
    ∀ (id : Nat) (ev : String) (resp : HttpResponse) (e : String),
      (deliver_webhook id ev (.ok resp)).record.status =
        (if resp.status_code < 400 then "delivered" else "failed")
      ∧ (deliver_webhook id ev (.ok resp)).record.response_status = some resp.status_code
      ∧ (deliver_webhook id ev (.ok resp)).record.response_body = some (resp.body.take 1000)
      ∧ (deliver_webhook id ev (.ok resp)).returned = decide (resp.status_code < 400)
      ∧ (deliver_webhook id ev (.error e)).record.status = "failed"
      ∧ (deliver_webhook id ev (.error e)).record.error_message = some e
      ∧ (deliver_webhook id ev (.error e)).returned = false
      ∧ ("X-Webhook-Delivery", toString id) ∈ (deliver_webhook id ev (.ok resp)).headers
      ∧ ("X-Webhook-Delivery", toString id) ∈ (deliver_webhook id ev (.error e)).headers := by
  intro id ev resp e
  refine ⟨?_, rfl, rfl, ?_, rfl, rfl, rfl, ?_, ?_⟩
  · by_cases h : resp.status_code < 400
    · simp [deliver_webhook, h]
    · simp [deliver_webhook, h]
  · by_cases h : resp.status_code < 400
    · simp [deliver_webhook, h]
    · simp [deliver_webhook, h]
  · simp [deliver_webhook]
  · simp [deliver_webhook]

/-- C9 counterexample: a 302 response — not a 2xx — is marked `delivered` and
reported as a success, where the claim says only 2xx responses mark the
delivery record delivered. -/
theorem C9_counterexample :
    (deliver_webhook 7 "document.processed" (.ok ⟨302, "redirect"⟩)).record.status
      = "delivered"
    ∧ (deliver_webhook 7 "document.processed" (.ok ⟨302, "redirect"⟩)).returned = true := by
  exact ⟨rfl, rfl⟩

/-- C10 (confirmed).  The template-field validation step is total: any raised
exception inside it is caught and mapped to a result with `is_valid = false`
and empty missing/low-confidence lists, and under the routing rule of
`set_validation_result` such a result classifies the document as `failed`
(a hard failure), not as `review_required`. -/
theorem C10_field_validation_total :
    ∀ (e : String) (d : SubmittedDocument),
      validate_template_fields_total (.error e) = validate_template_fields_fallback e
      ∧ (validate_template_fields_total (.error e)).is_valid = false
      ∧ (validate_template_fields_total (.error e)).missing_fields = []
      ∧ (validate_template_fields_total (.error e)).low_confidence_fields = []
      ∧ (d.set_validation_result
          (validationResultOfFieldValidation (validate_template_fields_total (.error e)))).status
          = .failed
      ∧ (d.set_validation_result
          (validationResultOfFieldValidation (validate_template_fields_total (.error e)))).requires_human_review
          = false := by
  intro e d
  refine ⟨rfl, rfl, rfl, rfl, ?_, ?_⟩ <;>
    simp [SubmittedDocument.set_validation_result, SubmittedDocument.update_status,
      SubmittedDocument.add_processing_event, SubmittedDocument.requires_human_review,
      validationResultOfFieldValidation, validate_template_fields_total,
      validate_template_fields_fallback]

end DocVerify
